import Mathlib

/-!
Verification development for the retail AI web panel (`src/app.py`): the
`CameraManager` camera subsystem, the training-job simulator, the zone JSON
persistence layer, and the lock-guarded frame buffer.

The Python code is shallowly embedded as explicit state machines.  External
effects (whether `cv2.VideoCapture` opens, whether a read succeeds, which
frame arrives, the `np.random` draws, thread interleavings) are supplied as
event parameters, so a trace of events covers every environment behaviour.
-/

namespace RetailAI

/-! ## Camera subsystem (`CameraManager`, `src/app.py` lines 28-110)

A `Handle` stands for one `cv2.VideoCapture` object; `hid` is its identity
(fresh per construction) and `opened` the result of `isOpened()`.  The state
carries the four fields of `CameraManager` plus bookkeeping that makes the
claims statable: `loops` counts the alive `_capture_loop` threads, `released`
records the handles on which `.release()` has been called, and `nextHid`
supplies fresh handle identities. -/

structure Handle where
  hid : Nat
  opened : Bool
deriving DecidableEq, Repr

/-- One decoded raster frame.  `data` is the opaque pixel content; `encodable`
models whether `cv2.imencode` succeeds on it (the `ret` flag at line 98). -/
structure Frame where
  data : Nat
  encodable : Bool
deriving DecidableEq, Repr

structure CameraState where
  camera : Option Handle
  camera_id : Option (Nat ⊕ String)
  is_streaming : Bool
  frame : Option Frame
  loops : Nat
  released : List Nat
  nextHid : Nat
deriving DecidableEq, Repr

/-- Initial `CameraManager.__init__` state (lines 29-34). -/
def camInit : CameraState :=
  { camera := none, camera_id := none, is_streaming := false, frame := none,
    loops := 0, released := [], nextHid := 0 }

/-- `CameraManager.connect` (lines 36-59).  `openOk` is the environment's
answer to `isOpened()`, `readOk` to the initial test `read()`.  The prior
handle, if any, is released first; `cv2.VideoCapture` always yields an object,
so `camera` holds the new handle even on failure.  On success the identity is
recorded, `is_streaming` is set and a `_capture_loop` thread is started
(`loops + 1`).  The `except` branch (line 58) is not modelled: the wrapped
calls are already modelled by their success flags. -/
def connect (s : CameraState) (openOk readOk : Bool) (cid : Nat) :
    CameraState × Bool × String :=
  let rel := match s.camera with
    | some h => h.hid :: s.released
    | none => s.released
  let s1 := { s with camera := some { hid := s.nextHid, opened := openOk },
                     released := rel, nextHid := s.nextHid + 1 }
  if !openOk then (s1, false, "Cannot open camera")
  else if !readOk then (s1, false, "Cannot read from camera")
  else ({ s1 with camera_id := some (Sum.inl cid), is_streaming := true,
                  loops := s1.loops + 1 },
        true, "Camera connected")

/-- `CameraManager.connect_ip` (lines 61-82): same shape as `connect` with a
URL identity and IP-specific messages. -/
def connect_ip (s : CameraState) (openOk readOk : Bool) (url : String) :
    CameraState × Bool × String :=
  let rel := match s.camera with
    | some h => h.hid :: s.released
    | none => s.released
  let s1 := { s with camera := some { hid := s.nextHid, opened := openOk },
                     released := rel, nextHid := s.nextHid + 1 }
  if !openOk then (s1, false, "Cannot connect to IP camera")
  else if !readOk then (s1, false, "Cannot read from IP camera")
  else ({ s1 with camera_id := some (Sum.inr url), is_streaming := true,
                  loops := s1.loops + 1 },
        true, "IP Camera connected")

/-- One iteration of `_capture_loop` (lines 84-91) by one alive loop thread.
The `while` guard is re-evaluated: if it fails the thread exits (`loops - 1`);
otherwise the thread reads (`readOk`, `f` supplied by the environment) and on
success stores the frame (the lock-protected write at lines 89-90). -/
def loopIter (s : CameraState) (readOk : Bool) (f : Frame) : CameraState :=
  if s.is_streaming && s.camera.isSome then
    if readOk then { s with frame := some f } else s
  else
    { s with loops := s.loops - 1 }

/-- Opaque stand-in for `cv2.imencode('.jpg', frame)` + base64 (lines 98-100);
the claims depend only on whether a string is produced, not on its content. -/
def jpegB64 (f : Frame) : String :=
  toString f.data

/-- `CameraManager.get_frame_base64` (lines 93-101). -/
def get_frame_base64 (s : CameraState) : Option String :=
  match s.frame with
  | none => none
  | some f => if f.encodable then some (jpegB64 f) else none

/-- `CameraManager.disconnect` (lines 103-110). -/
def disconnect (s : CameraState) : CameraState :=
  let s1 := { s with is_streaming := false }
  let s2 := match s1.camera with
    | some h => { s1 with released := h.hid :: s1.released, camera := none }
    | none => s1
  { s2 with camera_id := none, frame := none }

/-- `/api/camera/status` handler (lines 222-228): `connected` is
`camera_mgr.camera is not None`, paired with `camera_id`. -/
def camera_status (s : CameraState) : Bool × Option (Nat ⊕ String) :=
  (s.camera.isSome, s.camera_id)

/-- One interleaving event of the camera subsystem: an HTTP connect (local or
IP) with the environment's open/read outcomes, an HTTP disconnect, or one
iteration of some alive capture-loop thread. -/
inductive CamEvent where
  | connectEv (openOk readOk : Bool) (cid : Nat)
  | connectIpEv (openOk readOk : Bool) (url : String)
  | disconnectEv
  | loopIterEv (readOk : Bool) (f : Frame)
deriving DecidableEq, Repr

def camStep (s : CameraState) (e : CamEvent) : CameraState :=
  match e with
  | .connectEv o r c => (connect s o r c).1
  | .connectIpEv o r u => (connect_ip s o r u).1
  | .disconnectEv => disconnect s
  | .loopIterEv r f => loopIter s r f

def camRun (s : CameraState) (es : List CamEvent) : CameraState :=
  es.foldl camStep s

/-- Guard of the trace discipline: a connect event may only fire while no
capture-loop thread is alive. -/
def connectGuard (s : CameraState) : CamEvent → Bool
  | .connectEv _ _ _ => s.loops == 0
  | .connectIpEv _ _ _ => s.loops == 0
  | _ => true

/-- Trace discipline under which the one-loop invariant does hold: every
connect is issued while no capture-loop thread is alive. -/
def connectIdle : CameraState → List CamEvent → Bool
  | _, [] => true
  | s, e :: es => connectGuard s e && connectIdle (camStep s e) es

theorem loops_le_one_step (s : CameraState) (e : CamEvent)
    (h : s.loops ≤ 1) (hc : connectGuard s e = true) :
    (camStep s e).loops ≤ 1 := by
  cases e with
  | connectEv o r c =>
    simp only [connectGuard, beq_iff_eq] at hc
    simp only [camStep, connect]
    cases o <;> cases r <;> simp_all
  | connectIpEv o r u =>
    simp only [connectGuard, beq_iff_eq] at hc
    simp only [camStep, connect_ip]
    cases o <;> cases r <;> simp_all
  | disconnectEv =>
    simp only [camStep, disconnect]
    cases s.camera <;> simp_all
  | loopIterEv r f =>
    simp only [camStep, loopIter]
    split
    · split <;> simp_all
    · simp; omega

theorem loops_le_one_run (es : List CamEvent) :
    ∀ s : CameraState, s.loops ≤ 1 → connectIdle s es = true →
      (camRun s es).loops ≤ 1 := by
  induction es with
  | nil => intro s h _; simpa [camRun] using h
  | cons e es ih =>
    intro s h hc
    rw [connectIdle, Bool.and_eq_true] at hc
    exact ih (camStep s e) (loops_le_one_step s e h hc.1) hc.2

theorem connect_loops_mono (s : CameraState) (o r : Bool) (c : Nat) :
    s.loops ≤ (connect s o r c).1.loops := by
  simp only [connect]
  cases o <;> cases r <;> simp

theorem connect_ip_loops_mono (s : CameraState) (o r : Bool) (u : String) :
    s.loops ≤ (connect_ip s o r u).1.loops := by
  simp only [connect_ip]
  cases o <;> cases r <;> simp

/-- C1 (counterexample): from the initial state, two back-to-back successful
`connect` calls leave two `_capture_loop` threads alive — the second connect
releases the prior handle but never stops the prior loop (`is_streaming`
stays true and `camera` is reassigned without ever being `None`), refuting
"at most one CaptureLoop task is alive at any time". -/
theorem reconnect_leaves_two_loops :
    (camRun camInit [CamEvent.connectEv true true 0,
                     CamEvent.connectEv true true 1]).loops = 2 := by
  decide

/-- C1 (amended): at most one `_capture_loop` thread is alive throughout any
sequence of connect/connect_ip/disconnect calls and loop iterations in which
every connect is issued while no loop thread is alive; a connect issued while
a source is already connected never tears a running loop down (the alive-loop
count never decreases across `connect`/`connect_ip`). -/
theorem at_most_one_capture_loop_of_idle_connects
    (s : CameraState) (es : List CamEvent) (o r : Bool) (c : Nat) (u : String) :
    (s.loops ≤ 1 → connectIdle s es = true → (camRun s es).loops ≤ 1)
    ∧ s.loops ≤ (connect s o r c).1.loops
    ∧ s.loops ≤ (connect_ip s o r u).1.loops :=
  ⟨fun h hc => loops_le_one_run es s h hc,
   connect_loops_mono s o r c, connect_ip_loops_mono s o r u⟩

/-- Witness for `at_most_one_capture_loop_of_idle_connects` on a concrete
connect/disconnect/loop-exit/reconnect trace. -/
theorem at_most_one_capture_loop_of_idle_connects_witness :
    camInit.loops ≤ 1
    ∧ connectIdle camInit
        [CamEvent.connectEv true true 0, CamEvent.disconnectEv,
         CamEvent.loopIterEv true ⟨0, true⟩, CamEvent.connectEv true true 1] = true
    ∧ (camRun camInit
        [CamEvent.connectEv true true 0, CamEvent.disconnectEv,
         CamEvent.loopIterEv true ⟨0, true⟩, CamEvent.connectEv true true 1]).loops ≤ 1 :=
  ⟨by decide, by decide,
   (at_most_one_capture_loop_of_idle_connects camInit
      [CamEvent.connectEv true true 0, CamEvent.disconnectEv,
       CamEvent.loopIterEv true ⟨0, true⟩, CamEvent.connectEv true true 1]
      true true 0 "u").1 (by decide) (by decide)⟩

/-- C2: `disconnect` leaves `is_streaming = false`, no camera handle, no
recorded identity and no buffered frame, so the next `get_frame_base64`
returns `none`; and `disconnect` is idempotent (safe when already
disconnected). -/
theorem disconnect_clears_state (s : CameraState) :
    (disconnect s).is_streaming = false
    ∧ (disconnect s).camera = none
    ∧ (disconnect s).camera_id = none
    ∧ (disconnect s).frame = none
    ∧ get_frame_base64 (disconnect s) = none
    ∧ disconnect (disconnect s) = disconnect s := by
  cases hc : s.camera <;> simp [disconnect, get_frame_base64, hc]

/-- C9: when `connect` or `connect_ip` fails (open or test-read failure), the
freshly built `cv2.VideoCapture` handle is still stored in `self.camera`, so
`/api/camera/status` reports `connected = true`; and the previously connected
handle has already been released by then. -/
theorem failed_connect_retains_handle
    (s : CameraState) (hdl : Handle) (o r : Bool) (c : Nat) (u : String)
    (hcam : s.camera = some hdl) :
    ((connect s o r c).2.1 = false →
       (camera_status (connect s o r c).1).1 = true
       ∧ hdl.hid ∈ (connect s o r c).1.released)
    ∧ ((connect_ip s o r u).2.1 = false →
       (camera_status (connect_ip s o r u).1).1 = true
       ∧ hdl.hid ∈ (connect_ip s o r u).1.released) := by
  constructor <;> intro hf <;>
    cases o <;> cases r <;>
    simp_all [connect, connect_ip, camera_status]

/-- Witness for `failed_connect_retains_handle`: connect once successfully,
then fail to open a second device; status still reports connected and the
first handle is released. -/
theorem failed_connect_retains_handle_witness :
    (connect camInit true true 0).1.camera = some ⟨0, true⟩
    ∧ (camera_status (connect (connect camInit true true 0).1 false true 1).1).1 = true
    ∧ (0 : Nat) ∈ (connect (connect camInit true true 0).1 false true 1).1.released :=
  ⟨rfl,
   ((failed_connect_retains_handle (connect camInit true true 0).1 ⟨0, true⟩
       false true 1 "u" rfl).1 rfl).1,
   ((failed_connect_retains_handle (connect camInit true true 0).1 ⟨0, true⟩
       false true 1 "u" rfl).1 rfl).2⟩

/-! ## Training-job simulator (`src/app.py` lines 120-129 and 256-325)

The shared `training_status` dict becomes `TrainingStatus`; Python floats are
idealised as exact rationals, and the `np.random.random()` draws of each
simulated epoch are event parameters.  The stored `message` strings become
the `Msg` inductive (the `f`-string of line 316 keeps its numeric payload;
its exact text formatting is not claim-relevant).  A `Worker` is one alive
`training_worker` thread, with a program counter at the interleaving points
of its loop; `workers` is the list of alive worker threads. -/

inductive Msg where
  | notStarted
  | startingTraining
  | epochMsg (e n : Nat) (loss : ℚ)
  | completed
  | stoppedByUser
  | errorMsg (s : String)
deriving DecidableEq, Repr

structure TrainingStatus where
  is_training : Bool
  progress : Nat
  epoch : Nat
  total_epochs : Nat
  loss : ℚ
  accuracy : ℚ
  message : Msg
deriving DecidableEq, Repr

/-- Program counter of a `training_worker` thread.  `check i` is the top of
iteration `i` of the `for` loop (the `if not is_training: break` test);
`body i` is the epoch simulation (sleep plus the status writes of lines
312-316); `post` is the `if training_status['is_training']` after the loop
(line 318); `fin` is the `finally` block (line 325). -/
inductive WPhase where
  | check (i : Nat)
  | body (i : Nat)
  | post
  | fin
deriving DecidableEq, Repr

structure Worker where
  phase : WPhase
  ttype : String
  epochs : Nat
deriving DecidableEq, Repr

structure TrainState where
  status : TrainingStatus
  workers : List Worker
deriving DecidableEq, Repr

/-- The module-level `training_status` initialiser (lines 121-129) with no
worker thread alive. -/
def tInit : TrainState :=
  { status := { is_training := false, progress := 0, epoch := 0,
                total_epochs := 0, loss := 0, accuracy := 0,
                message := Msg.notStarted },
    workers := [] }

/-- `start_training` (lines 256-283): rejected while a job is active,
otherwise the status is reset and a `training_worker` thread is spawned. -/
def start_training (s : TrainState) (ttype : String) (epochs : Nat) :
    TrainState × Bool × String :=
  if s.status.is_training then
    (s, false, "Training already in progress")
  else
    ({ status := { is_training := true, progress := 0, epoch := 0,
                   total_epochs := epochs, loss := 0, accuracy := 0,
                   message := Msg.startingTraining },
       workers := s.workers ++ [{ phase := WPhase.check 0, ttype := ttype,
                                  epochs := epochs }] },
     true, "Training started")

/-- `stop_training` (lines 291-298). -/
def stop_training (s : TrainState) : TrainState × Bool × String :=
  ({ s with status := { s.status with
                        is_training := false,
                        message := Msg.stoppedByUser } },
   true, "Training stopped")

/-- One step of one `training_worker` thread (lines 300-325): the status
after the step and the worker's continuation (`none` when the thread exits).
`r1`, `r2` are the two `np.random.random()` draws of the epoch. -/
def workerStepOne (st : TrainingStatus) (w : Worker) (r1 r2 : ℚ) :
    TrainingStatus × Option Worker :=
  match w.phase with
  | .check i =>
    if i < w.epochs then
      if st.is_training then (st, some { w with phase := .body i })
      else (st, some { w with phase := .post })
    else (st, some { w with phase := .post })
  | .body i =>
    let l := (2.5 : ℚ) - (i : ℚ) * 0.2 + r1 * 0.1
    ({ st with epoch := i + 1,
               progress := ((i + 1) * 100) / w.epochs,
               loss := l,
               accuracy := (50 : ℚ) + (i : ℚ) * 4 + r2 * 2,
               message := Msg.epochMsg (i + 1) w.epochs l },
     some { w with phase := .check (i + 1) })
  | .post =>
    (if st.is_training then { st with message := Msg.completed } else st,
     some { w with phase := .fin })
  | .fin =>
    ({ st with is_training := false }, none)

/-- Replace the `k`-th worker with the continuation, dropping it when the
thread exited. -/
def setWorker : List Worker → Nat → Option Worker → List Worker
  | [], _, _ => []
  | _ :: ws, 0, none => ws
  | _ :: ws, 0, some w => w :: ws
  | x :: ws, k + 1, o => x :: setWorker ws k o

/-- Interleaving events of the training subsystem: the start/stop HTTP
handlers and one step of the `k`-th alive worker thread. -/
inductive TEvent where
  | startEv (ttype : String) (epochs : Nat)
  | stopEv
  | wstepEv (k : Nat) (r1 r2 : ℚ)
deriving DecidableEq, Repr

def tStep (s : TrainState) (e : TEvent) : TrainState :=
  match e with
  | .startEv t n => (start_training s t n).1
  | .stopEv => (stop_training s).1
  | .wstepEv k r1 r2 =>
    match s.workers.get? k with
    | none => s
    | some w =>
      let p := workerStepOne s.status w r1 r2
      { status := p.1, workers := setWorker s.workers k p.2 }

def tRun (s : TrainState) (es : List TEvent) : TrainState :=
  es.foldl tStep s

/-- A trace consisting solely of worker-thread steps (no start/stop). -/
def onlyWorker : List TEvent → Bool
  | [] => true
  | TEvent.wstepEv _ _ _ :: es => onlyWorker es
  | _ => false

/-- A worker thread is at an epoch boundary: not inside the epoch body. -/
def atBoundary (w : Worker) : Bool :=
  match w.phase with
  | .body _ => false
  | _ => true

def allBoundary (ws : List Worker) : Bool :=
  ws.all atBoundary

theorem setWorker_all (p : Worker → Bool) :
    ∀ (ws : List Worker) (k : Nat) (o : Option Worker),
      ws.all p = true → (∀ w, o = some w → p w = true) →
      (setWorker ws k o).all p = true := by
  intro ws
  induction ws with
  | nil => intro k o _ _; cases k <;> cases o <;> simp [setWorker]
  | cons x ws ih =>
    intro k o hall ho
    rw [List.all_cons, Bool.and_eq_true] at hall
    cases k with
    | zero =>
      cases o with
      | none => simpa [setWorker] using hall.2
      | some w =>
        simp only [setWorker, List.all_cons, Bool.and_eq_true]
        exact ⟨ho w rfl, hall.2⟩
    | succ k =>
      simp only [setWorker, List.all_cons, Bool.and_eq_true]
      exact ⟨hall.1, ih k o hall.2 ho⟩

/-- A worker step taken at an epoch boundary while `is_training` is false
leaves the status untouched and keeps the worker (if it survives) at a
boundary. -/
theorem workerStepOne_frozen (st : TrainingStatus) (w : Worker) (r1 r2 : ℚ)
    (hst : st.is_training = false) (hb : atBoundary w = true) :
    (workerStepOne st w r1 r2).1 = st
    ∧ ∀ w', (workerStepOne st w r1 r2).2 = some w' → atBoundary w' = true := by
  cases w with
  | mk ph t n =>
    cases ph with
    | check i =>
      by_cases hi : i < n <;>
        simp_all [workerStepOne, atBoundary]
    | body i => simp [atBoundary] at hb
    | post => simp_all [workerStepOne, atBoundary]
    | fin =>
      refine ⟨?_, by simp [workerStepOne]⟩
      cases st
      simp_all [workerStepOne]

theorem tStep_frozen (s : TrainState) (k : Nat) (r1 r2 : ℚ)
    (hst : s.status.is_training = false)
    (hb : allBoundary s.workers = true) :
    (tStep s (TEvent.wstepEv k r1 r2)).status = s.status
    ∧ allBoundary (tStep s (TEvent.wstepEv k r1 r2)).workers = true := by
  simp only [tStep]
  cases hw : s.workers.get? k with
  | none => exact ⟨rfl, hb⟩
  | some w =>
    have hmem : w ∈ s.workers := List.get?_mem hw
    have hwb : atBoundary w = true := by
      rw [allBoundary, List.all_eq_true] at hb
      exact hb w hmem
    have hfr := workerStepOne_frozen s.status w r1 r2 hst hwb
    exact ⟨hfr.1,
      setWorker_all atBoundary s.workers k (workerStepOne s.status w r1 r2).2
        hb hfr.2⟩

theorem tRun_frozen (es : List TEvent) :
    ∀ s : TrainState, onlyWorker es = true →
      s.status.is_training = false → allBoundary s.workers = true →
      (tRun s es).status = s.status := by
  induction es with
  | nil => intro s _ _ _; rfl
  | cons e es ih =>
    intro s ho hst hb
    cases e with
    | startEv t n => simp [onlyWorker] at ho
    | stopEv => simp [onlyWorker] at ho
    | wstepEv k r1 r2 =>
      rw [onlyWorker] at ho
      have hfr := tStep_frozen s k r1 r2 hst hb
      have := ih (tStep s (TEvent.wstepEv k r1 r2)) ho
        (by rw [hfr.1]; exact hst) hfr.2
      calc (tRun s (TEvent.wstepEv k r1 r2 :: es)).status
          = (tRun (tStep s (TEvent.wstepEv k r1 r2)) es).status := rfl
        _ = (tStep s (TEvent.wstepEv k r1 r2)).status := this
        _ = s.status := hfr.1

/-- Worker steps never set `is_training` back to true. -/
theorem tRun_is_training_false (es : List TEvent) :
    ∀ s : TrainState, onlyWorker es = true →
      s.status.is_training = false →
      (tRun s es).status.is_training = false := by
  induction es with
  | nil => intro s _ h; exact h
  | cons e es ih =>
    intro s ho hst
    cases e with
    | startEv t n => simp [onlyWorker] at ho
    | stopEv => simp [onlyWorker] at ho
    | wstepEv k r1 r2 =>
      rw [onlyWorker] at ho
      refine ih (tStep s (TEvent.wstepEv k r1 r2)) ho ?_
      simp only [tStep]
      cases hw : s.workers.get? k with
      | none => exact hst
      | some w =>
        cases w with
        | mk ph t n =>
          cases ph with
          | check i =>
            by_cases hi : i < n <;> simp_all [workerStepOne]
          | body i => simp_all [workerStepOne]
          | post => simp_all [workerStepOne]
          | fin => simp [workerStepOne]

/-- C3: `stop_training` flips `is_training` to false at once; it stays false
across any further worker-thread steps, and once every alive
`training_worker` thread has reached an epoch boundary (the in-flight epoch
having completed), no worker step changes the status at all — no further
`epoch`/`progress` advance and no further `message` update. -/
theorem stop_halts_training (s : TrainState) (es1 es2 : List TEvent)
    (h1 : onlyWorker es1 = true) (h2 : onlyWorker es2 = true)
    (hb : allBoundary (tRun (stop_training s).1 es1).workers = true) :
    (stop_training s).1.status.is_training = false
    ∧ (tRun (stop_training s).1 es1).status.is_training = false
    ∧ (tRun (tRun (stop_training s).1 es1) es2).status
        = (tRun (stop_training s).1 es1).status := by
  have h0 : (stop_training s).1.status.is_training = false := rfl
  have hf : (tRun (stop_training s).1 es1).status.is_training = false :=
    tRun_is_training_false es1 (stop_training s).1 h1 h0
  exact ⟨h0, hf, tRun_frozen es2 (tRun (stop_training s).1 es1) h2 hf hb⟩

/-- Witness for `stop_halts_training`: start a two-epoch job, let the worker
finish its first epoch, stop, let the worker observe the flag at the next
boundary and exit; no further step changes the status. -/
theorem stop_halts_training_witness :
    onlyWorker [TEvent.wstepEv 0 0 0] = true
    ∧ onlyWorker [TEvent.wstepEv 0 0 0, TEvent.wstepEv 0 0 0] = true
    ∧ allBoundary (tRun (stop_training
        (tRun (start_training tInit "detection" 2).1
          [TEvent.wstepEv 0 0 0, TEvent.wstepEv 0 0 0])).1
        [TEvent.wstepEv 0 0 0]).workers = true
    ∧ (tRun (tRun (stop_training
        (tRun (start_training tInit "detection" 2).1
          [TEvent.wstepEv 0 0 0, TEvent.wstepEv 0 0 0])).1
        [TEvent.wstepEv 0 0 0]) [TEvent.wstepEv 0 0 0, TEvent.wstepEv 0 0 0]).status
      = (tRun (stop_training
        (tRun (start_training tInit "detection" 2).1
          [TEvent.wstepEv 0 0 0, TEvent.wstepEv 0 0 0])).1
        [TEvent.wstepEv 0 0 0]).status :=
  ⟨by decide, by decide, by decide,
   (stop_halts_training
      (tRun (start_training tInit "detection" 2).1
        [TEvent.wstepEv 0 0 0, TEvent.wstepEv 0 0 0])
      [TEvent.wstepEv 0 0 0] [TEvent.wstepEv 0 0 0, TEvent.wstepEv 0 0 0]
      (by decide) (by decide) (by decide)).2.2⟩

/-- C4: `start_training` issued while `is_training` is true replies
"Training already in progress" with `success = false` and returns the state
— status fields and worker threads — entirely unchanged. -/
theorem start_rejected_while_running (s : TrainState) (t : String) (n : Nat)
    (h : s.status.is_training = true) :
    start_training s t n = (s, false, "Training already in progress") := by
  simp [start_training, h]

/-- Witness for `start_rejected_while_running`: a second start right after a
first one is rejected and mutates nothing. -/
theorem start_rejected_while_running_witness :
    (start_training tInit "detection" 3).1.status.is_training = true
    ∧ start_training (start_training tInit "detection" 3).1 "segmentation" 5
      = ((start_training tInit "detection" 3).1, false,
         "Training already in progress") :=
  ⟨rfl, start_rejected_while_running (start_training tInit "detection" 3).1
    "segmentation" 5 rfl⟩

set_option maxHeartbeats 4000000 in
/-- C5: a job started with `epochs = 3` and no stop signal advances the epoch
exactly three times (epoch is 1 after the first simulated epoch, 2 after the
second, 3 after the third) and then terminates: `progress = 100`,
`is_training = false`, completion message, worker thread gone — for every
possible pair of `np.random.random()` draws in each epoch. -/
theorem three_epoch_job_completes (a1 b1 a2 b2 a3 b3 : ℚ) :
    (tRun (start_training tInit "detection" 3).1
      [TEvent.wstepEv 0 0 0, TEvent.wstepEv 0 a1 b1]).status.epoch = 1
    ∧ (tRun (start_training tInit "detection" 3).1
      [TEvent.wstepEv 0 0 0, TEvent.wstepEv 0 a1 b1,
       TEvent.wstepEv 0 0 0, TEvent.wstepEv 0 a2 b2]).status.epoch = 2
    ∧ (tRun (start_training tInit "detection" 3).1
      [TEvent.wstepEv 0 0 0, TEvent.wstepEv 0 a1 b1,
       TEvent.wstepEv 0 0 0, TEvent.wstepEv 0 a2 b2,
       TEvent.wstepEv 0 0 0, TEvent.wstepEv 0 a3 b3,
       TEvent.wstepEv 0 0 0, TEvent.wstepEv 0 0 0,
       TEvent.wstepEv 0 0 0]).status.epoch = 3
    ∧ (tRun (start_training tInit "detection" 3).1
      [TEvent.wstepEv 0 0 0, TEvent.wstepEv 0 a1 b1,
       TEvent.wstepEv 0 0 0, TEvent.wstepEv 0 a2 b2,
       TEvent.wstepEv 0 0 0, TEvent.wstepEv 0 a3 b3,
       TEvent.wstepEv 0 0 0, TEvent.wstepEv 0 0 0,
       TEvent.wstepEv 0 0 0]).status.progress = 100
    ∧ (tRun (start_training tInit "detection" 3).1
      [TEvent.wstepEv 0 0 0, TEvent.wstepEv 0 a1 b1,
       TEvent.wstepEv 0 0 0, TEvent.wstepEv 0 a2 b2,
       TEvent.wstepEv 0 0 0, TEvent.wstepEv 0 a3 b3,
       TEvent.wstepEv 0 0 0, TEvent.wstepEv 0 0 0,
       TEvent.wstepEv 0 0 0]).status.is_training = false
    ∧ (tRun (start_training tInit "detection" 3).1
      [TEvent.wstepEv 0 0 0, TEvent.wstepEv 0 a1 b1,
       TEvent.wstepEv 0 0 0, TEvent.wstepEv 0 a2 b2,
       TEvent.wstepEv 0 0 0, TEvent.wstepEv 0 a3 b3,
       TEvent.wstepEv 0 0 0, TEvent.wstepEv 0 0 0,
       TEvent.wstepEv 0 0 0]).status.message = Msg.completed
    ∧ (tRun (start_training tInit "detection" 3).1
      [TEvent.wstepEv 0 0 0, TEvent.wstepEv 0 a1 b1,
       TEvent.wstepEv 0 0 0, TEvent.wstepEv 0 a2 b2,
       TEvent.wstepEv 0 0 0, TEvent.wstepEv 0 a3 b3,
       TEvent.wstepEv 0 0 0, TEvent.wstepEv 0 0 0,
       TEvent.wstepEv 0 0 0]).workers = [] :=
  ⟨rfl, rfl, rfl, rfl, rfl, rfl, rfl⟩

/-! ## Zone persistence (`src/app.py` lines 114-118 and 230-254)

`Json` models Python/JSON values (`json.dump`/`json.load` are faithful on
them, so the file stores a `Json` when readable).  The filesystem slot for
`zones_config.json` is `Option (Option Json)`: `none` means the file does not
exist, `some none` that it exists but reading or parsing it fails (an
exception from `open`/`json.load`), `some (some j)` that it parses as `j`.
The process starts with an arbitrary disk state and the in-memory
`zone_config` default of lines 115-118. -/

inductive Json where
  | null
  | boolean (v : Bool)
  | num (q : ℚ)
  | str (s : String)
  | arr (els : List Json)
  | obj (fields : List (String × Json))

/-- Assign to key `k` in a Python dict's entry list: replace the first
occurrence or append. -/
def setF : List (String × Json) → String → Json → List (String × Json)
  | [], k, v => [(k, v)]
  | (k1, v1) :: rest, k, v =>
    if k1 = k then (k, v) :: rest else (k1, v1) :: setF rest k v

def lookupF : List (String × Json) → String → Option Json
  | [], _ => none
  | (k1, v1) :: rest, k => if k1 = k then some v1 else lookupF rest k

/-- `d[k] = v` on a JSON value: defined only on objects (on anything else
Python raises `TypeError`). -/
def Json.setField : Json → String → Json → Option Json
  | .obj fs, k, v => some (.obj (setF fs k v))
  | _, _, _ => none

def Json.getField : Json → String → Option Json
  | .obj fs, k => lookupF fs k
  | _, _ => none

/-- The module-level `zone_config` initialiser (lines 115-118). -/
def default_zone_config : Json :=
  .obj [("zones", .arr []), ("image", .null)]

structure ZState where
  file : Option (Option Json)
  zone_config : Json

/-- Process start: in-memory default, arbitrary disk content. -/
def zInit (disk : Option (Option Json)) : ZState :=
  { file := disk, zone_config := default_zone_config }

/-- `/api/zones/save` (lines 230-241): mutate `zone_config['zones']`, then
truncate-write the whole document to `zones_config.json`.  `none` models the
uncaught `TypeError` when `zone_config` is not a dict (the request errors,
state unchanged). -/
def save_zones (s : ZState) (zonesArg : Json) :
    ZState × Option (Bool × String) :=
  match s.zone_config.setField "zones" zonesArg with
  | some cfg1 =>
    ({ file := some (some cfg1), zone_config := cfg1 },
     some (true, "Zones saved"))
  | none => (s, none)

/-- `/api/zones/load` (lines 243-254): if the file exists, replace
`zone_config` with its parsed content; any failure is swallowed by the bare
`except`; reply with the (possibly updated) `zone_config`. -/
def load_zones (s : ZState) : ZState × Json :=
  match s.file with
  | some (some j) => ({ s with zone_config := j }, j)
  | _ => (s, s.zone_config)

inductive ZEvent where
  | saveEv (zonesArg : Json)
  | loadEv

def zStep (s : ZState) (e : ZEvent) : ZState :=
  match e with
  | .saveEv z => (save_zones s z).1
  | .loadEv => (load_zones s).1

def zRun (s : ZState) (es : List ZEvent) : ZState :=
  es.foldl zStep s

/-- Key reachability invariant: while the persisted file is missing or
unreadable, the in-memory `zone_config` is still the default (only a
successful save or load changes it, and both need or create a readable
file). -/
def zInv (s : ZState) : Prop :=
  (s.file = none ∨ s.file = some none) → s.zone_config = default_zone_config

theorem zStep_inv (s : ZState) (e : ZEvent) (h : zInv s) :
    zInv (zStep s e) := by
  cases e with
  | saveEv z =>
    simp only [zStep, save_zones]
    cases hs : s.zone_config.setField "zones" z with
    | none => exact h
    | some cfg1 => intro hf; cases hf <;> simp_all
  | loadEv =>
    simp only [zStep, load_zones]
    cases hf : s.file with
    | none => exact h
    | some o =>
      cases o with
      | none => exact h
      | some j => intro hc; simp at hc

theorem zRun_inv (es : List ZEvent) :
    ∀ s : ZState, zInv s → zInv (zRun s es) := by
  induction es with
  | nil => intro s h; exact h
  | cons e es ih => intro s h; exact ih (zStep s e) (zStep_inv s e h)

theorem lookupF_setF (k : String) (v : Json) :
    ∀ fs : List (String × Json), lookupF (setF fs k v) k = some v := by
  intro fs
  induction fs with
  | nil => simp [setF, lookupF]
  | cons p rest ih =>
    cases p with
    | mk k1 v1 =>
      by_cases hk : k1 = k
      · simp [setF, lookupF, hk]
      · simp [setF, lookupF, hk, ih]

/-- C6: `load_zones` never surfaces an error (it totalises every disk state);
in every reachable process state it returns the stored document when one
parses, and the empty default `{zones: [], image: None}` when the file is
missing or unreadable. -/
theorem load_zones_default_on_missing (disk : Option (Option Json))
    (es : List ZEvent)
    (hbad : (zRun (zInit disk) es).file = none
            ∨ (zRun (zInit disk) es).file = some none) :
    (load_zones (zRun (zInit disk) es)).2 = default_zone_config := by
  have hinv : zInv (zRun (zInit disk) es) :=
    zRun_inv es (zInit disk) (fun _ => rfl)
  have hcfg := hinv hbad
  cases hbad with
  | inl h => simp [load_zones, h, hcfg]
  | inr h => simp [load_zones, h, hcfg]

/-- Witness for `load_zones_default_on_missing`: a fresh process with no
persisted file, after one failed-parse load attempt, still serves the
default document. -/
theorem load_zones_default_on_missing_witness :
    ((zRun (zInit none) [ZEvent.loadEv]).file = none
     ∨ (zRun (zInit none) [ZEvent.loadEv]).file = some none)
    ∧ (load_zones (zRun (zInit none) [ZEvent.loadEv])).2
        = default_zone_config :=
  ⟨Or.inl rfl,
   load_zones_default_on_missing none [ZEvent.loadEv] (Or.inl rfl)⟩

/-- C7: a successful `save_zones` replaces the persisted document wholesale:
the new file content is exactly the in-memory document with its `zones` entry
set to the request payload, whatever the prior file held (the same content is
written from any prior disk state), and its `zones` entry is the payload. -/
theorem save_zones_overwrites (s : ZState) (z cfg1 : Json)
    (disk : Option (Option Json))
    (hset : s.zone_config.setField "zones" z = some cfg1) :
    (save_zones s z).1.file = some (some cfg1)
    ∧ (save_zones { s with file := disk } z).1.file = some (some cfg1)
    ∧ cfg1.getField "zones" = some z := by
  refine ⟨?_, ?_, ?_⟩
  · simp [save_zones, hset]
  · simp [save_zones, hset]
  · cases hc : s.zone_config <;> simp [Json.setField, hc] at hset
    case obj fs =>
      rw [← hset]
      simp [Json.getField, lookupF_setF]

/-- Witness for `save_zones_overwrites` at the concrete payload
`[[[0,0],[1,0],[1,1]]]` from a fresh process over a corrupt file. -/
theorem save_zones_overwrites_witness :
    (zInit (some none)).zone_config.setField "zones"
      (Json.arr [Json.arr [Json.arr [Json.num 0, Json.num 0],
                           Json.arr [Json.num 1, Json.num 0],
                           Json.arr [Json.num 1, Json.num 1]]])
      = some (Json.obj
          [("zones", Json.arr [Json.arr [Json.arr [Json.num 0, Json.num 0],
                                         Json.arr [Json.num 1, Json.num 0],
                                         Json.arr [Json.num 1, Json.num 1]]]),
           ("image", Json.null)])
    ∧ (save_zones (zInit (some none))
        (Json.arr [Json.arr [Json.arr [Json.num 0, Json.num 0],
                             Json.arr [Json.num 1, Json.num 0],
                             Json.arr [Json.num 1, Json.num 1]]])).1.file
      = some (some (Json.obj
          [("zones", Json.arr [Json.arr [Json.arr [Json.num 0, Json.num 0],
                                         Json.arr [Json.num 1, Json.num 0],
                                         Json.arr [Json.num 1, Json.num 1]]]),
           ("image", Json.null)])) :=
  ⟨rfl,
   (save_zones_overwrites (zInit (some none))
      (Json.arr [Json.arr [Json.arr [Json.num 0, Json.num 0],
                           Json.arr [Json.num 1, Json.num 0],
                           Json.arr [Json.num 1, Json.num 1]]])
      (Json.obj
        [("zones", Json.arr [Json.arr [Json.arr [Json.num 0, Json.num 0],
                                       Json.arr [Json.num 1, Json.num 0],
                                       Json.arr [Json.num 1, Json.num 1]]]),
         ("image", Json.null)])
      none rfl).1⟩

/-- C8: save→load round-trip: after a successful `save_zones z`, `load_zones`
returns exactly the document just saved, whose `zones` entry is `z`. -/
theorem save_load_roundtrip (s : ZState) (z cfg1 : Json)
    (hset : s.zone_config.setField "zones" z = some cfg1) :
    (load_zones (save_zones s z).1).2 = cfg1
    ∧ (load_zones (save_zones s z).1).2.getField "zones" = some z := by
  have hfile : (save_zones s z).1.file = some (some cfg1) := by
    simp [save_zones, hset]
  have hload : (load_zones (save_zones s z).1).2 = cfg1 := by
    simp [load_zones, hfile]
  refine ⟨hload, ?_⟩
  rw [hload]
  cases hc : s.zone_config <;> simp [Json.setField, hc] at hset
  case obj fs =>
    rw [← hset]
    simp [Json.getField, lookupF_setF]

/-- Witness for `save_load_roundtrip` on the spec's concrete payload
`{zones: [[[0,0],[1,0],[1,1]]]}` from a fresh process. -/
theorem save_load_roundtrip_witness :
    (zInit none).zone_config.setField "zones"
      (Json.arr [Json.arr [Json.arr [Json.num 0, Json.num 0],
                           Json.arr [Json.num 1, Json.num 0],
                           Json.arr [Json.num 1, Json.num 1]]])
      = some (Json.obj
          [("zones", Json.arr [Json.arr [Json.arr [Json.num 0, Json.num 0],
                                         Json.arr [Json.num 1, Json.num 0],
                                         Json.arr [Json.num 1, Json.num 1]]]),
           ("image", Json.null)])
    ∧ (load_zones (save_zones (zInit none)
        (Json.arr [Json.arr [Json.arr [Json.num 0, Json.num 0],
                             Json.arr [Json.num 1, Json.num 0],
                             Json.arr [Json.num 1, Json.num 1]]])).1).2.getField "zones"
      = some (Json.arr [Json.arr [Json.arr [Json.num 0, Json.num 0],
                                  Json.arr [Json.num 1, Json.num 0],
                                  Json.arr [Json.num 1, Json.num 1]]]) :=
  ⟨rfl,
   (save_load_roundtrip (zInit none)
      (Json.arr [Json.arr [Json.arr [Json.num 0, Json.num 0],
                           Json.arr [Json.num 1, Json.num 0],
                           Json.arr [Json.num 1, Json.num 1]]])
      (Json.obj
        [("zones", Json.arr [Json.arr [Json.arr [Json.num 0, Json.num 0],
                                       Json.arr [Json.num 1, Json.num 0],
                                       Json.arr [Json.num 1, Json.num 1]]]),
         ("image", Json.null)])
      rfl).2⟩

/-! ## Frame buffer under the lock (`src/app.py` lines 34 and 86-101)

Micro-step semantics of the one shared `self.lock` as it guards the
`_capture_loop` writer (`with self.lock: self.frame = frame`, lines 89-90)
and the `get_frame_base64` reader (lines 95-100).  To give "partially written
frame" meaning, the slot is split into two halves `lo`/`hi`, written one per
micro-step; the `n`-th completed write stores `n` in both halves, so a read
whose halves differ has seen a torn frame.  Each thread's critical section is
entered only while the other is outside it — exactly the guarantee of the
single shared mutex; a blocked acquisition leaves the state unchanged. -/

inductive WrPc where
  | outside
  | locked
  | wroteLo
deriving DecidableEq, Repr

inductive RdPc where
  | outside
  | locked
  | readLo
deriving DecidableEq, Repr

structure BufState where
  wpc : WrPc
  rpc : RdPc
  lo : Nat
  hi : Nat
  seq : Nat
  ra : Nat
  obs : List (Nat × Nat)
deriving DecidableEq, Repr

def wInCrit : WrPc → Bool
  | .outside => false
  | _ => true

def rInCrit : RdPc → Bool
  | .outside => false
  | _ => true

/-- One micro-step of the chosen thread (`true` = the capture-loop writer,
`false` = the frame-request reader). -/
def bufStep (s : BufState) (writer : Bool) : BufState :=
  if writer then
    match s.wpc with
    | .outside => if rInCrit s.rpc then s else { s with wpc := .locked }
    | .locked => { s with lo := s.seq, wpc := .wroteLo }
    | .wroteLo => { s with hi := s.seq, seq := s.seq + 1, wpc := .outside }
  else
    match s.rpc with
    | .outside => if wInCrit s.wpc then s else { s with rpc := .locked }
    | .locked => { s with ra := s.lo, rpc := .readLo }
    | .readLo => { s with obs := (s.ra, s.hi) :: s.obs, rpc := .outside }

def bufRun (s : BufState) (sched : List Bool) : BufState :=
  sched.foldl bufStep s

def bufInit : BufState :=
  { wpc := .outside, rpc := .outside, lo := 0, hi := 0, seq := 1, ra := 0,
    obs := [] }

/-- Inductive invariant of the lock discipline: the two critical sections
exclude each other, the two halves agree except mid-write, a half-written
slot holds the current write number, the reader's first half still matches
the slot while it holds the lock (with the writer outside), and every
completed observation is torn-free. -/
def bufInv (s : BufState) : Bool :=
  (!(wInCrit s.wpc) || !(rInCrit s.rpc))
  && (decide (s.wpc = WrPc.wroteLo) || (s.lo == s.hi))
  && (!(decide (s.wpc = WrPc.wroteLo)) || (s.lo == s.seq))
  && (!(decide (s.rpc = RdPc.readLo))
      || ((s.ra == s.lo) && decide (s.wpc = WrPc.outside)))
  && s.obs.all (fun p => p.1 == p.2)

theorem bufStep_inv (s : BufState) (w : Bool) (h : bufInv s = true) :
    bufInv (bufStep s w) = true := by
  simp only [bufInv, Bool.and_eq_true, Bool.or_eq_true, Bool.not_eq_true',
    decide_eq_true_eq, beq_iff_eq] at h ⊢
  obtain ⟨⟨⟨⟨hmx, hlh⟩, hlq⟩, hrd⟩, hobs⟩ := h
  cases w <;> cases hw : s.wpc <;> cases hr : s.rpc <;>
    simp_all [bufStep, wInCrit, rInCrit, List.all_cons] <;>
    assumption

theorem bufRun_inv (sched : List Bool) :
    ∀ s : BufState, bufInv s = true → bufInv (bufRun s sched) = true := by
  induction sched with
  | nil => intro s h; exact h
  | cons b l ih => intro s h; exact ih (bufStep s b) (bufStep_inv s b h)

/-- C10: the `_capture_loop` frame write and the `get_frame_base64` frame
read run under the one shared `self.lock`, and consequently every read
completed in any interleaving of the two threads returns a frame whose
halves come from the same write — never a partially written frame. -/
theorem reader_never_sees_torn_frame (sched : List Bool)
    (p : Nat × Nat) (hp : p ∈ (bufRun bufInit sched).obs) :
    p.1 = p.2 := by
  have hinv : bufInv (bufRun bufInit sched) = true :=
    bufRun_inv sched bufInit (by decide)
  simp only [bufInv, Bool.and_eq_true] at hinv
  have h2 := hinv.2
  rw [List.all_eq_true] at h2
  simpa using h2 p hp

/-- Witness for `reader_never_sees_torn_frame`: one full write followed by
one full read observes the un-torn pair `(1, 1)`. -/
theorem reader_never_sees_torn_frame_witness :
    ((1, 1) : Nat × Nat) ∈
      (bufRun bufInit [true, true, true, false, false, false]).obs
    ∧ ((1, 1) : Nat × Nat).1 = ((1, 1) : Nat × Nat).2 :=
  ⟨by decide,
   reader_never_sees_torn_frame [true, true, true, false, false, false]
     (1, 1) (by decide)⟩

end RetailAI
